import Mathlib

/-!
Verification of the roster-normalization pipeline of `src/server.js`
(SWGoH AI Coach backend).  The definitions below are a shallow embedding
of the JavaScript transform in the `/api/player/:code` endpoint together
with its helper functions (`cleanUnitId`, `getUnitName`, `decodeStatValue`,
the zeta/omicron counting loop, the currency classification, and the
response assembly).  JavaScript numbers are modelled by exact arithmetic
(`ℤ` / `ℚ`); a possibly-NaN number is `Option ℚ` (with `none` = NaN);
loosely-typed upstream fields are modelled by `JsVal` / `Option` fields.
-/

/-- Model of a loosely-typed JavaScript value as it occurs in the upstream
payload: `undefined`, `null`, an (integral) number, or a string. -/
inductive JsVal where
  | undef
  | nullv
  | num (n : ℤ)
  | str (s : String)
deriving DecidableEq

/-- JavaScript truthiness on `JsVal`: `undefined`, `null`, `0` and `""` are
falsy. -/
def jsFalsy : JsVal → Bool
  | .undef => true
  | .nullv => true
  | .num n => n == 0
  | .str s => s == ""

/-- JavaScript `a || b` on loosely-typed values. -/
def jsOr (a b : JsVal) : JsVal := if jsFalsy a then b else a

/-- JavaScript `String(v)` for the values that occur here. -/
def jsToString : JsVal → String
  | .str s => s
  | .num n => toString n
  | .undef => "undefined"
  | .nullv => "null"

/-- JavaScript `a || d` for an optional string field (`""` is falsy). -/
def strOrD (a : Option String) (d : String) : String :=
  match a with
  | some s => if s = "" then d else s
  | none => d

/-- JavaScript `a || d` for an optional nonnegative-number field (`0` is falsy). -/
def natOrD (a : Option ℕ) (d : ℕ) : ℕ :=
  match a with
  | some n => if n = 0 then d else n
  | none => d

/-- JavaScript `a || null` for an optional nonnegative-number field. -/
def natTruthy (a : Option ℕ) : Option ℕ :=
  match a with
  | some n => if n = 0 then none else some n
  | none => none

/-- JavaScript `a || null` for an optional integer field. -/
def intTruthy (a : Option ℤ) : Option ℤ :=
  match a with
  | some n => if n = 0 then none else some n
  | none => none

/-- JavaScript `a || null` for an optional string field. -/
def strTruthy (a : Option String) : Option String :=
  match a with
  | some s => if s = "" then none else some s
  | none => none

/-- Map a function over the characters of a string. -/
def mapChars (f : Char → Char) (s : String) : String := String.mk (s.data.map f)

/-- ASCII upper-casing of a string (JS `toUpperCase` on the ASCII ids used here). -/
def toUpperStr (s : String) : String := mapChars Char.toUpper s

/-- ASCII lower-casing of a string (JS `toLowerCase` on the ASCII ids used here). -/
def toLowerStr (s : String) : String := mapChars Char.toLower s

/-- Does `needle` occur at the start of `hay`? -/
def leadsWith : List Char → List Char → Bool
  | [], _ => true
  | _ :: _, [] => false
  | a :: as, b :: bs => a == b && leadsWith as bs

/-- Does `needle` occur contiguously anywhere in the list? -/
def occursIn (needle : List Char) : List Char → Bool
  | [] => leadsWith needle []
  | b :: bs => leadsWith needle (b :: bs) || occursIn needle bs

/-- JavaScript `hay.indexOf(pat) >= 0`. -/
def strContains (hay pat : String) : Bool := occursIn pat.data hay.data

/-- A regex `\w` character: `[A-Za-z0-9_]`. -/
def isWordChar (c : Char) : Bool :=
  ('a' ≤ c && c ≤ 'z') || ('A' ≤ c && c ≤ 'Z') || ('0' ≤ c && c ≤ '9') || c == '_'

/-- JavaScript `replace(/\b\w/g, c => c.toUpperCase())`: upper-case every word
character that starts a maximal `\w` run.  The boolean argument records
whether the previous character was a word character. -/
def titleWordChars (prevWord : Bool) : List Char → List Char
  | [] => []
  | c :: cs =>
      (if isWordChar c && !prevWord then c.toUpper else c) ::
        titleWordChars (isWordChar c) cs

/-- Title-case a string at `\b\w` boundaries. -/
def titleCaseStr (s : String) : String := String.mk (titleWordChars false s.data)

/-- JavaScript `replace(/_/g, ' ')`. -/
def usToSpaceStr (s : String) : String :=
  mapChars (fun c => if c == '_' then ' ' else c) s

/-- Source `cleanUnitId` (server.js lines 27-33): empty id gives `"Unknown"`,
otherwise replace underscores with spaces, lower-case, and title-case every
word. -/
def cleanUnitId (id : String) : String :=
  if id == "" then "Unknown"
  else titleCaseStr (toLowerStr (usToSpaceStr id))

/-- JavaScript `s.split(':')[0]`: the characters before the first colon. -/
def splitColonHead (s : String) : String :=
  String.mk (s.data.takeWhile (fun c => c ≠ ':'))

/-- Source `getUnitName` (server.js lines 35-40): strip the rarity suffix,
look up the base id in the name map (a truthy cached value wins), otherwise
fall back to `cleanUnitId`. -/
def getUnitName (nameMap : List (String × String)) (definitionId : String) : String :=
  let baseId := splitColonHead definitionId
  match List.lookup baseId nameMap with
  | some v => if v == "" then cleanUnitId baseId else v
  | none => cleanUnitId baseId

/-- Value of a decimal-digit list, most significant first. -/
def digitsVal (ds : List Char) : ℕ :=
  ds.foldl (fun a c => 10 * a + (c.toNat - 48)) 0

/-- Value of a hexadecimal digit, if any. -/
def hexDigitVal (c : Char) : Option ℕ :=
  if '0' ≤ c && c ≤ '9' then some (c.toNat - 48)
  else if 'a' ≤ c && c ≤ 'f' then some (c.toNat - 87)
  else if 'A' ≤ c && c ≤ 'F' then some (c.toNat - 55)
  else none

/-- Value of a hexadecimal-digit list, most significant first. -/
def hexVal (ds : List Char) : ℕ :=
  ds.foldl (fun a c => 16 * a + (hexDigitVal c).getD 0) 0

/-- Unsigned part of JavaScript `parseInt` with no radix argument: a leading
`0x`/`0X` switches to hexadecimal, otherwise the longest leading run of
decimal digits is taken; no digits at all give NaN (`none`). -/
def parseUnsigned (cs : List Char) : Option ℕ :=
  match cs with
  | '0' :: x :: rest =>
      if x == 'x' || x == 'X' then
        let ds := rest.takeWhile (fun c => (hexDigitVal c).isSome)
        if ds.isEmpty then none else some (hexVal ds)
      else
        some (digitsVal ((('0' : Char) :: x :: rest).takeWhile Char.isDigit))
  | _ =>
      let ds := cs.takeWhile Char.isDigit
      if ds.isEmpty then none else some (digitsVal ds)

/-- JavaScript whitespace skipped by `parseInt`. -/
def jsWhitespace (c : Char) : Bool :=
  c == ' ' || c == '\t' || c == '\n' || c == '\r' || c == '\x0b' || c == '\x0c'

/-- JavaScript `parseInt(s)` on a string: skip whitespace, optional sign,
then the longest numeric token; `none` models NaN. -/
def parseIntStr (s : String) : Option ℤ :=
  let cs := s.data.dropWhile jsWhitespace
  match cs with
  | '-' :: rest => (parseUnsigned rest).map (fun n => -(n : ℤ))
  | '+' :: rest => (parseUnsigned rest).map (fun n => (n : ℤ))
  | _ => (parseUnsigned cs).map (fun n => (n : ℤ))

/-- JavaScript `parseInt(v)` on a loosely-typed value: a number is converted
via its decimal representation (identity for the integral numbers modelled
here); `undefined` and `null` stringify to non-numeric text, hence NaN. -/
def parseIntJS : JsVal → Option ℤ
  | .num n => some n
  | .str s => parseIntStr s
  | .undef => none
  | .nullv => none

/-- Source `PERCENT_STAT_IDS` object (server.js lines 625-636): the stat ids
stored as percentage-scaled encodings. -/
def PERCENT_STAT_IDS : List String :=
  ["16", "17", "18", "48", "49", "52", "53", "54", "55", "56"]

/-- Floor of a rational, computably: `num / den` with Euclidean integer
division (the denominator is positive). -/
def floorQ (x : ℚ) : ℤ := x.num / (x.den : ℤ)

/-- JavaScript `Math.round` on a finite number: floor of `x + 1/2`
(halves round toward positive infinity). -/
def jsRound (x : ℚ) : ℤ := floorQ (x + 1 / 2)

/-- JavaScript `parseFloat(x.toFixed(4))`: round to four decimal places,
halves toward positive infinity. -/
def round4 (x : ℚ) : ℚ := ((floorQ (x * 10000 + 1 / 2) : ℚ)) / 10000

/-- Source `decodeStatValue` (server.js lines 649-657), after `parseInt` has
produced the integral magnitude `v`: percentage-category ids decode as
`parseFloat((v / 1000000 * 100).toFixed(4))`, every other id as
`Math.round(v / 10000)`. -/
def decodeStatValue (statId : String) (v : ℤ) : ℚ :=
  if statId ∈ PERCENT_STAT_IDS then round4 ((v : ℚ) / 1000000 * 100)
  else ((jsRound ((v : ℚ) / 10000) : ℤ) : ℚ)

/-- Source `decodeStatValue` on the raw loosely-typed magnitude:
`var v = parseInt(rawVal || 0)` followed by the branch on the stat id.
A NaN from `parseInt` (`none`) propagates through both arithmetic branches
to a NaN result. -/
def decodeStatValueJS (statId : String) (rawVal : JsVal) : Option ℚ :=
  match parseIntJS (if jsFalsy rawVal then .num 0 else rawVal) with
  | none => none
  | some v => some (decodeStatValue statId v)

/-- Entry of the loaded `skillDataMap` (server.js lines 267-273).  Thresholds
are in in-game tier numbering; `0` means the skill has no such upgrade. -/
structure SkillDef where
  isZeta : Bool
  maxTier : ℕ
  zetaTier : ℕ
  omicronTier : ℕ
  omicronMode : ℕ
deriving DecidableEq

/-- An owned skill entry of a raw roster unit: `{id, tier}` where `tier` is
the number of upgrades applied (in-game tier minus one). -/
structure OwnedSkill where
  id : String
  tier : Option ℕ
deriving DecidableEq

/-- One iteration of the zeta/omicron counting loop (server.js lines 603-614):
look the skill up in the map; with a definition present and the map loaded,
compare the in-game tier (`sk.tier + 1`) against the stored thresholds,
otherwise fall back to the fixed tier-8 / tier-9 heuristic.  Returns
`(countsAsZeta, countsAsOmicron)`. -/
def classifySkill (skillMap : List (String × SkillDef)) (ready : Bool)
    (sk : OwnedSkill) : Bool × Bool :=
  let inGameTier := sk.tier.getD 0 + 1
  match List.lookup sk.id skillMap with
  | some d =>
      if ready then
        (decide (0 < d.zetaTier) && decide (d.zetaTier ≤ inGameTier),
         decide (0 < d.omicronTier) && decide (d.omicronTier ≤ inGameTier))
      else (decide (8 ≤ inGameTier), decide (9 ≤ inGameTier))
  | none => (decide (8 ≤ inGameTier), decide (9 ≤ inGameTier))

/-- The `zetas` / `omicrons` counters accumulated by the skill loop over a
unit's owned skills (server.js lines 602-614). -/
def countZetaOmicron (skillMap : List (String × SkillDef)) (ready : Bool)
    (skills : List OwnedSkill) : ℕ × ℕ :=
  (skills.countP (fun sk => (classifySkill skillMap ready sk).1),
   skills.countP (fun sk => (classifySkill skillMap ready sk).2))

/-- The `{unitStat, unitStatId, unscaledDecimalValue}` record nested inside a
mod's primary or secondary stat entry. -/
structure StatVal where
  unitStat : Option ℕ
  unitStatId : Option ℕ
  unscaledDecimalValue : JsVal
deriving DecidableEq

/-- Wrapper `mod.primaryStat` whose `stat` field may be absent. -/
structure PrimaryWrap where
  stat : Option StatVal
deriving DecidableEq

/-- Entry of `mod.secondaryStat`. -/
structure SecondaryWrap where
  stat : Option StatVal
  statRolls : Option ℕ
deriving DecidableEq

/-- A raw `equippedStatMod` entry. -/
structure RawMod where
  definitionId : Option String
  level : Option ℕ
  tier : Option ℕ
  primaryStat : Option PrimaryWrap
  secondaryStat : Option (List SecondaryWrap)
deriving DecidableEq

/-- Decoded stat of a normalized mod: `{stat, value}` where `value` may be
NaN for unparseable magnitudes. -/
structure ModStat where
  stat : String
  value : Option ℚ
deriving DecidableEq

/-- Decoded secondary stat of a normalized mod. -/
structure ModSec where
  stat : String
  value : Option ℚ
  rolls : ℕ
deriving DecidableEq

/-- Normalized mod record built by the mod loop (server.js lines 640-679). -/
structure NormalizedMod where
  definitionId : String
  level : ℕ
  tier : ℕ
  primary : Option ModStat
  secondaries : List ModSec
deriving DecidableEq

/-- `String(sv.unitStat || sv.unitStatId || '')`: stat-id string of a primary
stat (a present but zero field is falsy and falls through). -/
def statIdPrimary (sv : StatVal) : String :=
  match natTruthy sv.unitStat with
  | some n => toString n
  | none =>
      match natTruthy sv.unitStatId with
      | some n => toString n
      | none => ""

/-- `String(sv.unitStatId || sv.unitStat || '')`: stat-id string of a
secondary stat. -/
def statIdSecondary (sv : StatVal) : String :=
  match natTruthy sv.unitStatId with
  | some n => toString n
  | none =>
      match natTruthy sv.unitStat with
      | some n => toString n
      | none => ""

/-- Source mod transform (server.js lines 640-679): copy identity fields with
falsy defaults, decode the primary stat when both `primaryStat` and its
`stat` are present, and decode each secondary entry that carries a `stat`. -/
def decodeMod (m : RawMod) : NormalizedMod :=
  { definitionId := m.definitionId.getD ""
    level := m.level.getD 0
    tier := m.tier.getD 0
    primary :=
      match m.primaryStat with
      | some pw =>
          match pw.stat with
          | some sv =>
              some { stat := statIdPrimary sv
                     value := decodeStatValueJS (statIdPrimary sv) sv.unscaledDecimalValue }
          | none => none
      | none => none
    secondaries :=
      (m.secondaryStat.getD []).filterMap (fun sw =>
        match sw.stat with
        | some sv =>
            some { stat := statIdSecondary sv
                   value := decodeStatValueJS (statIdSecondary sv) sv.unscaledDecimalValue
                   rolls := sw.statRolls.getD 0 }
        | none => none) }

/-- The nested `relic` field of a raw roster unit. -/
structure Relic where
  currentTier : Option ℕ
deriving DecidableEq

/-- A raw roster unit as delivered by the upstream `/player` payload; every
field may be absent. -/
structure RawUnit where
  definitionId : Option String
  currentRarity : Option ℕ
  currentLevel : Option ℕ
  currentTier : Option ℕ
  relic : Option Relic
  skill : Option (List OwnedSkill)
  equippedStatMod : Option (List RawMod)
  combatType : Option ℕ
deriving DecidableEq

/-- `(unit.relic && unit.relic.currentTier) ? unit.relic.currentTier : 0`
(server.js line 595). -/
def relicRawOf (u : RawUnit) : ℕ :=
  match u.relic with
  | some r => r.currentTier.getD 0
  | none => 0

/-- Computed-stats record merged in from `playerCharacterStats`
(server.js lines 463-476). -/
structure UnitStats where
  speed : ℚ
  health : ℚ
  protection : ℚ
  phys_dmg : ℚ
  spec_dmg : ℚ
  armor : ℚ
  resistance : ℚ
  crit_chance : ℚ
  crit_dmg : ℚ
  potency : ℚ
  tenacity : ℚ
  mastery : ℚ
deriving DecidableEq

/-- The `parsed` record pushed onto `characters` or `ships`
(server.js lines 688-705).  `zeta_abilities` / `omicron_abilities` are
`new Array(n)` sparse arrays in the source, modelled by their length. -/
structure NormalizedUnit where
  base_id : String
  name : String
  combat_type : ℕ
  rarity : ℕ
  level : ℕ
  gear_level : ℕ
  relic_tier : ℕ
  power : ℕ
  zeta_abilities : ℕ
  omicron_abilities : ℕ
  mods : List NormalizedMod
  stats : Option UnitStats
deriving DecidableEq

/-- Per-unit transform of the roster loop (server.js lines 587-705): derive
the base id and display name, relic display tier (raw − 2 above 2), the
zeta/omicron counts, the decoded mods, and the combat type (explicit nonzero
field, else inferred from gear/relic); gear, mods and computed stats are
attached only for characters (`combat_type 1`). -/
def transformUnit (nameMap : List (String × String))
    (skillMap : List (String × SkillDef)) (skillReady : Bool)
    (statsMap : List (String × UnitStats)) (unit : RawUnit) : NormalizedUnit :=
  let baseId := splitColonHead (unit.definitionId.getD "")
  let name := getUnitName nameMap (unit.definitionId.getD "")
  let stars := unit.currentRarity.getD 0
  let level := unit.currentLevel.getD 0
  let gear := unit.currentTier.getD 0
  let relicRaw := relicRawOf unit
  let relicDisplay := if 2 < relicRaw then relicRaw - 2 else 0
  let zo := countZetaOmicron skillMap skillReady (unit.skill.getD [])
  let mods := (unit.equippedStatMod.getD []).map decodeMod
  let combatType0 := unit.combatType.getD 0
  let combatType :=
    if combatType0 = 0 then (if 1 < gear ∨ 0 < relicRaw then 1 else 2)
    else combatType0
  { base_id := baseId
    name := name
    combat_type := combatType
    rarity := stars
    level := level
    gear_level := if combatType = 1 then gear else 0
    relic_tier := relicDisplay
    power := 0
    zeta_abilities := zo.1
    omicron_abilities := zo.2
    mods := if combatType = 1 then mods else []
    stats := if combatType = 1 then List.lookup baseId statsMap else none }

/-- The roster loop's `characters` / `ships` accumulation
(server.js lines 707-711): a unit with combat type 2 is pushed onto `ships`,
every other unit onto `characters`, in payload order. -/
def partitionRoster (nameMap : List (String × String))
    (skillMap : List (String × SkillDef)) (skillReady : Bool)
    (statsMap : List (String × UnitStats)) :
    List RawUnit → List NormalizedUnit × List NormalizedUnit
  | [] => ([], [])
  | u :: rest =>
      let p := transformUnit nameMap skillMap skillReady statsMap u
      let pr := partitionRoster nameMap skillMap skillReady statsMap rest
      if p.combat_type == 2 then (pr.1, p :: pr.2) else (p :: pr.1, pr.2)

/-- Entry of the loosely-keyed `profileStat` array. -/
structure ProfileStat where
  nameKey : Option String
  value : JsVal
  index : JsVal
  statId : JsVal
  id : JsVal
deriving DecidableEq

/-- One iteration of the name-key galactic-power scan
(server.js lines 505-511) over the accumulator `(gpTotal, gpChar, gpShip)`. -/
def gpUpdate (acc : ℤ × ℤ × ℤ) (s : ProfileStat) : ℤ × ℤ × ℤ :=
  let key := toUpperStr (strOrD s.nameKey "")
  let v := (parseIntJS s.value).getD 0
  let acc1 :=
    if strContains key "GALACTIC_POWER" && !strContains key "CHAR"
        && !strContains key "SHIP" then
      (v, acc.2.1, acc.2.2)
    else acc
  let acc2 :=
    if strContains key "CHAR" && strContains key "GALACTIC" then
      (acc1.1, v, acc1.2.2)
    else acc1
  if strContains key "SHIP" && strContains key "GALACTIC" then
    (acc2.1, acc2.2.1, v)
  else acc2

/-- Name-key based galactic-power extraction. -/
def gpFirstPass (l : List ProfileStat) : ℤ × ℤ × ℤ := l.foldl gpUpdate (0, 0, 0)

/-- Index-based fallback extraction of total galactic power
(server.js lines 515-521): an entry whose `index || statId || id` is the
string `'1'` or the number `1` overwrites the total. -/
def gpSecondPass (l : List ProfileStat) (g : ℤ) : ℤ :=
  l.foldl (fun acc s =>
    let idv := jsOr s.index (jsOr s.statId (jsOr s.id (.str "")))
    let v := (parseIntJS s.value).getD 0
    if idv == JsVal.str "1" || idv == JsVal.num 1 then v else acc) g

/-- Entry of the `pvpProfile` array. -/
structure PvpEntry where
  tab : JsVal
  rank : Option ℕ
deriving DecidableEq

/-- Arena-rank extraction (server.js lines 755-759): tab 1 sets the squad
arena rank, tab 2 the fleet arena rank (`pvp.rank || null`). -/
def pvpRanks (l : List PvpEntry) : Option ℕ × Option ℕ :=
  l.foldl (fun acc p =>
    let t := (parseIntJS p.tab).getD 0
    let r := natTruthy p.rank
    let acc1 := if t == 1 then (r, acc.2) else acc
    if t == 2 then (acc1.1, r) else acc1) (none, none)

/-- Entry of the `seasonStatus` array. -/
structure SeasonEntry where
  league : Option String
  division : Option ℤ
  seasonPoints : Option ℤ
  wins : Option ℤ
  losses : Option ℤ
deriving DecidableEq

/-- First `seasonStatus` entry with a truthy `league` (server.js lines 764-767). -/
def firstWithLeague : List SeasonEntry → Option SeasonEntry
  | [] => none
  | s :: rest => if strOrD s.league "" == "" then firstWithLeague rest else some s

/-- The nested `playerRating.playerRankStatus` record. -/
structure PlayerRankStatus where
  leagueId : Option String
  divisionId : Option ℤ
deriving DecidableEq

/-- The `playerRating` field of the raw payload. -/
structure PlayerRating where
  playerRankStatus : Option PlayerRankStatus
deriving DecidableEq

/-- The response's `grand_arena` object.  `rank` is never assigned by the
source (it stays `null`); the remaining fields are filled from
`seasonStatus` or, if that gave no league, from `playerRankStatus`. -/
structure GrandArena where
  rank : Option ℕ
  league_tier : Option String
  division_tier : Option ℤ
  season_points : Option ℤ
  wins : Option ℤ
  losses : Option ℤ
deriving DecidableEq

/-- Grand-arena assembly (server.js lines 754-787): start from all-null,
copy league/division/points/wins/losses from the first `seasonStatus` entry
with a league, then let `playerRankStatus` fill league and division only if
the league is still falsy. -/
def buildGrandArena (seasons : List SeasonEntry) (rating : Option PlayerRating) :
    GrandArena :=
  let base : GrandArena := ⟨none, none, none, none, none, none⟩
  let afterSeason :=
    match firstWithLeague seasons with
    | some s =>
        { base with
          league_tier := s.league
          division_tier := s.division
          season_points := intTruthy s.seasonPoints
          wins := some (s.wins.getD 0)
          losses := some (s.losses.getD 0) }
    | none => base
  match rating with
  | some pr =>
      match pr.playerRankStatus with
      | some prs =>
          if strOrD afterSeason.league_tier "" == "" then
            { afterSeason with
              league_tier := strTruthy prs.leagueId
              division_tier := intTruthy prs.divisionId }
          else afterSeason
      | none => afterSeason
  | none => afterSeason

/-- Entry of the extracted currency array; all fields loosely typed. -/
structure CurrencyEntry where
  id : JsVal
  currencyId : JsVal
  key : JsVal
  quantity : JsVal
  value : JsVal
  amount : JsVal
deriving DecidableEq

/-- `String(c.id || c.currencyId || c.key || '').toUpperCase()`
(server.js line 812). -/
def currencyIdString (c : CurrencyEntry) : String :=
  toUpperStr (jsToString (jsOr c.id (jsOr c.currencyId (jsOr c.key (.str "")))))

/-- `parseInt(c.quantity || c.value || c.amount || 0)` (server.js line 813);
`none` models NaN. -/
def currencyQty (c : CurrencyEntry) : Option ℤ :=
  parseIntJS (jsOr c.quantity (jsOr c.value (jsOr c.amount (.num 0))))

/-- Credits bucket condition (server.js line 815). -/
def matchesCredits (id : String) : Bool := id == "1" || strContains id "CREDIT"

/-- Crystals bucket condition (server.js line 816). -/
def matchesCrystals (id : String) : Bool :=
  id == "2" || strContains id "CRYSTAL" || strContains id "PREMIUM"

/-- Ally-points bucket condition (server.js line 817). -/
def matchesAllyPoints (id : String) : Bool := id == "3" || strContains id "ALLY"

/-- Cantina bucket condition (server.js line 818). -/
def matchesCantina (id : String) : Bool := id == "4" || strContains id "CANTINA"

/-- Squad-arena-token bucket condition (server.js line 819). -/
def matchesSquadArena (id : String) : Bool := id == "5" || strContains id "SQUAD"

/-- Fleet-token bucket condition (server.js line 820). -/
def matchesFleet (id : String) : Bool :=
  id == "6" || strContains id "FLEET" || strContains id "SHIP_PRESTIGE"

/-- Galactic-war-token bucket condition (server.js line 821). -/
def matchesGw (id : String) : Bool :=
  id == "7" || strContains id "GALACTIC_WAR" || strContains id "GW"

/-- Guild-event-token-1 bucket condition (server.js line 822). -/
def matchesGet1 (id : String) : Bool :=
  id == "15" || strContains id "GUILD_EVENT_TOKEN_1" || id == "GET1"

/-- Guild-event-token-2 bucket condition (server.js line 823). -/
def matchesGet2 (id : String) : Bool :=
  id == "16" || strContains id "GUILD_EVENT_TOKEN_2" || id == "GET2"

/-- Guild-event-token-3 bucket condition (server.js line 824). -/
def matchesGet3 (id : String) : Bool :=
  id == "17" || strContains id "GUILD_EVENT_TOKEN_3" || id == "GET3"

/-- The `currencies` object under construction: `none` means the key was
never assigned; an assigned value may itself be NaN (inner `none`). -/
structure Currencies where
  credits : Option (Option ℤ)
  crystals : Option (Option ℤ)
  ally_points : Option (Option ℤ)
  cantina : Option (Option ℤ)
  squad_arena_tokens : Option (Option ℤ)
  fleet_tokens : Option (Option ℤ)
  gw_tokens : Option (Option ℤ)
  get1 : Option (Option ℤ)
  get2 : Option (Option ℤ)
  get3 : Option (Option ℤ)
deriving DecidableEq

/-- The empty `currencies` object. -/
def emptyCurrencies : Currencies :=
  ⟨none, none, none, none, none, none, none, none, none, none⟩

/-- One iteration of the currency classification loop
(server.js lines 811-825): every bucket whose independent `if` condition
matches the (upper-cased) id is assigned the parsed quantity. -/
def classifyCurrency (cur : Currencies) (c : CurrencyEntry) : Currencies :=
  let id := currencyIdString c
  let qty := currencyQty c
  { credits := if matchesCredits id then some qty else cur.credits
    crystals := if matchesCrystals id then some qty else cur.crystals
    ally_points := if matchesAllyPoints id then some qty else cur.ally_points
    cantina := if matchesCantina id then some qty else cur.cantina
    squad_arena_tokens := if matchesSquadArena id then some qty else cur.squad_arena_tokens
    fleet_tokens := if matchesFleet id then some qty else cur.fleet_tokens
    gw_tokens := if matchesGw id then some qty else cur.gw_tokens
    get1 := if matchesGet1 id then some qty else cur.get1
    get2 := if matchesGet2 id then some qty else cur.get2
    get3 := if matchesGet3 id then some qty else cur.get3 }

/-- The list of the ten bucket conditions evaluated on one entry. -/
def bucketBools (c : CurrencyEntry) : List Bool :=
  let id := currencyIdString c
  [matchesCredits id, matchesCrystals id, matchesAllyPoints id, matchesCantina id,
   matchesSquadArena id, matchesFleet id, matchesGw id, matchesGet1 id,
   matchesGet2 id, matchesGet3 id]

/-- How many of the ten known currency buckets an entry matches. -/
def bucketMatchCount (c : CurrencyEntry) : ℕ := (bucketBools c).count true

/-- A raw datacron affix entry. -/
structure RawAffix where
  targetRule : Option String
  abilityId : Option String
  id : Option String
  scopeIcon : Option String
  scope : Option String
  statType : JsVal
  stat : Option StatVal
  statValue : JsVal
deriving DecidableEq

/-- A raw datacron entry. -/
structure RawDatacron where
  id : Option String
  setId : Option String
  templateId : Option String
  tier : Option ℕ
  level : Option ℕ
  locked : Option Bool
  targetRule : Option String
  affix : Option (List RawAffix)
  affixList : Option (List RawAffix)
deriving DecidableEq

/-- Transformed datacron affix (server.js lines 849-861); `stat` and `value`
are present only when the entry carried stat information. -/
structure DcAffixOut where
  id : String
  scope : String
  ability : String
  stat : Option JsVal
  value : Option (Option ℤ)
deriving DecidableEq

/-- Transformed datacron record (server.js lines 838-863). -/
structure DcOut where
  id : String
  setId : String
  level : ℕ
  locked : Bool
  targetRule : String
  affix : List DcAffixOut
deriving DecidableEq

/-- `af.statType || (af.stat && af.stat.unitStatId) || ''`
(server.js line 857). -/
def affixStatField (af : RawAffix) : JsVal :=
  let second : JsVal :=
    match af.stat with
    | some sv =>
        match sv.unitStatId with
        | some n => .num n
        | none => .undef
    | none => .undef
  jsOr af.statType (jsOr second (.str ""))

/-- `af.statValue || (af.stat && af.stat.unscaledDecimalValue) || 0`
(server.js line 858). -/
def affixStatRawVal (af : RawAffix) : JsVal :=
  let second : JsVal :=
    match af.stat with
    | some sv => sv.unscaledDecimalValue
    | none => .undef
  jsOr af.statValue (jsOr second (.num 0))

/-- Datacron affix transform (server.js lines 849-861). -/
def transformAffix (af : RawAffix) : DcAffixOut :=
  let hasStat := !jsFalsy af.statType || af.stat.isSome
  { id := strOrD af.targetRule (strOrD af.abilityId (strOrD af.id ""))
    scope := strOrD af.scopeIcon (strOrD af.scope "")
    ability := strOrD af.abilityId ""
    stat := if hasStat then some (affixStatField af) else none
    value := if hasStat then some (parseIntJS (affixStatRawVal af)) else none }

/-- `dc.affix || dc.affixList || []` (server.js line 849); a present array is
truthy even when empty. -/
def selectAffixes (dc : RawDatacron) : List RawAffix :=
  match dc.affix with
  | some l => l
  | none => dc.affixList.getD []

/-- Datacron transform (server.js lines 838-863). -/
def transformDatacron (dc : RawDatacron) : DcOut :=
  { id := strOrD dc.id ""
    setId := strOrD dc.setId (strOrD dc.templateId "")
    level := natOrD dc.tier (natOrD dc.level 0)
    locked := dc.locked.getD false
    targetRule := strOrD dc.targetRule ""
    affix := (selectAffixes dc).map transformAffix }

/-- The raw player payload parsed from the `/player` response; each field the
transform touches, all optional.  The dynamic key scan of lines 796-804
(searching the payload's own field names for `currenc` / `resource`) ranges
over keys this typed model does not represent; for payloads with no such
extra fields — all payloads modelled here — it leaves the selection
unchanged. -/
structure RawPlayer where
  name : Option String
  allyCode : JsVal
  guildName : Option String
  level : Option ℕ
  rosterUnit : Option (List RawUnit)
  profileStat : Option (List ProfileStat)
  pvpProfile : Option (List PvpEntry)
  seasonStatus : Option (List SeasonEntry)
  playerRating : Option PlayerRating
  currency : Option (List CurrencyEntry)
  currencyItem : Option (List CurrencyEntry)
  profileCurrency : Option (List CurrencyEntry)
  datacron : Option (List RawDatacron)
  datacronList : Option (List RawDatacron)
deriving DecidableEq

/-- `raw.currency || raw.currencyItem || raw.profileCurrency || []`
(server.js line 793); a present array is truthy even when empty. -/
def selectCurrencyArray (raw : RawPlayer) : List CurrencyEntry :=
  match raw.currency with
  | some l => l
  | none =>
      match raw.currencyItem with
      | some l => l
      | none => raw.profileCurrency.getD []

/-- `raw.datacron || raw.datacronList || []` (server.js line 832). -/
def selectDatacrons (raw : RawPlayer) : List RawDatacron :=
  match raw.datacron with
  | some l => l
  | none => raw.datacronList.getD []

/-- A response's `arena` / `fleet_arena` object. -/
structure ArenaInfo where
  rank : Option ℕ
deriving DecidableEq

/-- The endpoint's JSON response (server.js lines 734-867). -/
structure PlayerResponse where
  name : String
  ally_code : JsVal
  galactic_power : ℤ
  character_galactic_power : ℤ
  ship_galactic_power : ℤ
  guild_name : String
  arena : ArenaInfo
  fleet_arena : ArenaInfo
  grand_arena : GrandArena
  level : ℕ
  characters : List NormalizedUnit
  ships : List NormalizedUnit
  currencies : Currencies
  datacrons : List DcOut
deriving DecidableEq

/-- The full comlink-to-frontend transform of the `/api/player/:code`
endpoint (server.js lines 500-867), from the parsed raw payload and the
process-wide caches to the response object.  Every extraction step degrades
to an empty, zero or fallback value; the function is total. -/
def normalizePlayer (code : String) (nameMap : List (String × String))
    (skillMap : List (String × SkillDef)) (skillReady : Bool)
    (statsMap : List (String × UnitStats)) (raw : RawPlayer) : PlayerResponse :=
  let profStats := raw.profileStat.getD []
  let gp1 := gpFirstPass profStats
  let gpTotal :=
    if gp1.1 == 0 && !profStats.isEmpty then gpSecondPass profStats gp1.1
    else gp1.1
  let pr := partitionRoster nameMap skillMap skillReady statsMap (raw.rosterUnit.getD [])
  let ranks := pvpRanks (raw.pvpProfile.getD [])
  { name := strOrD raw.name "Unknown"
    ally_code := jsOr raw.allyCode (.str code)
    galactic_power := gpTotal
    character_galactic_power := gp1.2.1
    ship_galactic_power := gp1.2.2
    guild_name := strOrD raw.guildName ""
    arena := ⟨ranks.1⟩
    fleet_arena := ⟨ranks.2⟩
    grand_arena := buildGrandArena (raw.seasonStatus.getD []) raw.playerRating
    level := natOrD raw.level 85
    characters := pr.1
    ships := pr.2
    currencies := (selectCurrencyArray raw).foldl classifyCurrency emptyCurrencies
    datacrons := (selectDatacrons raw).map transformDatacron }

/-- The end-to-end scenario unit of the spec: Darth Revan at 7 stars, level
85, gear 13, relic raw tier 9, explicit character combat type, one skill with
7 applied upgrade tiers. -/
def darthRevanRaw : RawUnit :=
  { definitionId := some "DARTHREVAN:SEVEN_STAR"
    currentRarity := some 7
    currentLevel := some 85
    currentTier := some 13
    relic := some ⟨some 9⟩
    skill := some [⟨"basicskill_DARTHREVAN", some 7⟩]
    equippedStatMod := none
    combatType := some 1 }

/-- A unit with an explicit starship combat type that nevertheless carries a
raw relic tier above 2. -/
def relicShip : RawUnit :=
  { definitionId := some "SHIPY"
    currentRarity := none
    currentLevel := none
    currentTier := none
    relic := some ⟨some 9⟩
    skill := none
    equippedStatMod := none
    combatType := some 2 }

/-- A unit with no explicit combat type, no gear above 1 and no relic: the
transform infers a starship. -/
def pureShip : RawUnit :=
  { definitionId := some "SHIPX"
    currentRarity := some 7
    currentLevel := some 50
    currentTier := none
    relic := none
    skill := none
    equippedStatMod := none
    combatType := none }

/-- All-zero computed-stats record. -/
def zeroStats : UnitStats := ⟨0, 0, 0, 0, 0, 0, 0, 0, 0, 0, 0, 0⟩

/-- An explicit starship that carries an equipped mod, paired below with a
computed-stats map that contains its base id. -/
def shipWithMods : RawUnit :=
  { definitionId := some "HOUNDSTOOTH:SEVEN_STAR"
    currentRarity := some 7
    currentLevel := some 85
    currentTier := some 1
    relic := none
    skill := none
    equippedStatMod := some [⟨some "mod1", some 15, some 5, none, none⟩]
    combatType := some 2 }

/-- Stats map holding an entry for `shipWithMods`'s base id. -/
def shipStatsMap : List (String × UnitStats) := [("HOUNDSTOOTH", zeroStats)]

/-- The minimal valid payload `{name, rosterUnit: []}`. -/
def minimalPayload : RawPlayer :=
  { name := some "Alice"
    allyCode := .undef
    guildName := none
    level := none
    rosterUnit := some []
    profileStat := none
    pvpProfile := none
    seasonStatus := none
    playerRating := none
    currency := none
    currencyItem := none
    profileCurrency := none
    datacron := none
    datacronList := none }

/-- Expected response for the minimal payload: empty rosters, empty
currencies, null ranks, default level and ally code echoed from the route. -/
def minimalExpected : PlayerResponse :=
  { name := "Alice"
    ally_code := JsVal.str "123456789"
    galactic_power := 0
    character_galactic_power := 0
    ship_galactic_power := 0
    guild_name := ""
    arena := ⟨none⟩
    fleet_arena := ⟨none⟩
    grand_arena := ⟨none, none, none, none, none, none⟩
    level := 85
    characters := []
    ships := []
    currencies := emptyCurrencies
    datacrons := [] }

/-- A currency entry whose textual id contains both `FLEET` and `CREDIT`. -/
def fleetCreditEntry : CurrencyEntry :=
  { id := JsVal.str "FLEET_CREDIT"
    currencyId := JsVal.undef
    key := JsVal.undef
    quantity := JsVal.num 5
    value := JsVal.undef
    amount := JsVal.undef }

/-- A currency entry recognized by no bucket. -/
def unmatchedEntry : CurrencyEntry :=
  { id := JsVal.str "XYZZY"
    currencyId := JsVal.undef
    key := JsVal.undef
    quantity := JsVal.num 3
    value := JsVal.undef
    amount := JsVal.undef }

theorem floorQ_eq_floor (x : ℚ) : floorQ x = Int.floor x := Rat.floor_def.symm

theorem floorQAddHalf (n : ℤ) : floorQ ((n : ℚ) + 1 / 2) = n := by
  rw [floorQ_eq_floor, Int.floor_int_add]
  have h0 : ⌊(1 / 2 : ℚ)⌋ = 0 := by
    rw [Int.floor_eq_zero_iff, Set.mem_Ico]
    constructor <;> norm_num
  rw [h0, add_zero]

theorem decodeZero (statId : String) : decodeStatValue statId 0 = 0 := by
  unfold decodeStatValue
  by_cases h : statId ∈ PERCENT_STAT_IDS
  · rw [if_pos h]
    unfold round4
    have e : ((0 : ℤ) : ℚ) / 1000000 * 100 * 10000 + 1 / 2 = ((0 : ℤ) : ℚ) + 1 / 2 := by
      norm_num
    rw [e, floorQAddHalf]
    norm_num
  · rw [if_neg h]
    unfold jsRound
    have e : ((0 : ℤ) : ℚ) / 10000 + 1 / 2 = ((0 : ℤ) : ℚ) + 1 / 2 := by norm_num
    rw [e, floorQAddHalf]
    norm_num

/-- C3: for every stat id in the fixed percentage set 16, 17, 18, 48, 49, 52,
53, 54, 55, 56 and every raw magnitude, `decodeStatValue` returns the raw
value divided by 1,000,000, times 100, rounded to 4 decimal places — so
1385000 decodes to 138.5 — and for every stat id outside that set it returns
the raw value divided by 10,000, rounded to the nearest integer — so 250000
decodes to 25. -/
theorem c3_decode_stat_scaling :
    (∀ statId : String,
       statId ∈ (["16", "17", "18", "48", "49", "52", "53", "54", "55", "56"] :
           List String) →
       ∀ v : ℤ, decodeStatValue statId v = round4 ((v : ℚ) / 1000000 * 100))
  ∧ (∀ statId : String,
       statId ∉ (["16", "17", "18", "48", "49", "52", "53", "54", "55", "56"] :
           List String) →
       ∀ v : ℤ, decodeStatValue statId v = ((jsRound ((v : ℚ) / 10000) : ℤ) : ℚ))
  ∧ decodeStatValue "16" 1385000 = 138.5
  ∧ decodeStatValue "5" 250000 = 25 := by
  refine ⟨?_, ?_, ?_, ?_⟩
  · intro statId hmem v
    unfold decodeStatValue
    rw [if_pos (show statId ∈ PERCENT_STAT_IDS from hmem)]
  · intro statId hmem v
    unfold decodeStatValue
    rw [if_neg (show statId ∉ PERCENT_STAT_IDS from hmem)]
  · have h16 : ("16" : String) ∈ PERCENT_STAT_IDS := by decide
    unfold decodeStatValue
    rw [if_pos h16]
    unfold round4
    have e : ((1385000 : ℤ) : ℚ) / 1000000 * 100 * 10000 + 1 / 2 =
        ((1385000 : ℤ) : ℚ) + 1 / 2 := by norm_num
    rw [e, floorQAddHalf]
    norm_num
  · have h5 : ("5" : String) ∉ PERCENT_STAT_IDS := by decide
    unfold decodeStatValue
    rw [if_neg h5]
    unfold jsRound
    have e : ((250000 : ℤ) : ℚ) / 10000 + 1 / 2 = ((25 : ℤ) : ℚ) + 1 / 2 := by norm_num
    rw [e, floorQAddHalf]
    norm_num

/-- Witness for C3: both branches of the decoder theorem applied at the
documented regression fixtures. -/
theorem c3_decode_stat_scaling_witness :
    decodeStatValue "16" 1385000 = round4 (((1385000 : ℤ) : ℚ) / 1000000 * 100)
  ∧ decodeStatValue "5" 250000 = ((jsRound (((250000 : ℤ) : ℚ) / 10000) : ℤ) : ℚ) :=
  ⟨c3_decode_stat_scaling.1 "16" (by decide) 1385000,
   c3_decode_stat_scaling.2.1 "5" (by decide) 250000⟩

/-- C4 counterexample: the decoder applied to the non-numeric non-empty raw
magnitude `"abc"` returns NaN (modelled `none`) — not a finite number, and in
particular not 0 — so the claim that every non-numeric input coerces to 0 and
every result is finite is false on the code. -/
theorem c4_nan_counterexample :
    decodeStatValueJS "5" (JsVal.str "abc") = none := by decide

/-- C4 (amended): the decoder is total; raw magnitudes that are absent,
null, empty or zero coerce to 0 and decode to 0; every integral magnitude
decodes to a finite number; but a non-empty string that `parseInt` cannot
parse yields NaN, which propagates to a NaN result instead of 0. -/
theorem c4_decoder_totality :
    (∀ (statId : String) (v : JsVal), jsFalsy v = true →
       decodeStatValueJS statId v = some 0)
  ∧ (∀ (statId : String) (n : ℤ),
       (decodeStatValueJS statId (JsVal.num n)).isSome = true)
  ∧ (∀ (statId : String) (s : String), s ≠ "" → parseIntStr s = none →
       decodeStatValueJS statId (JsVal.str s) = none) := by
  refine ⟨?_, ?_, ?_⟩
  · intro statId v hfalsy
    unfold decodeStatValueJS
    rw [if_pos hfalsy]
    show some (decodeStatValue statId 0) = some 0
    rw [decodeZero]
  · intro statId n
    by_cases h : n = 0
    · simp [decodeStatValueJS, jsFalsy, h, parseIntJS]
    · simp [decodeStatValueJS, jsFalsy, h, parseIntJS]
  · intro statId s hs hparse
    have hf : ¬(jsFalsy (JsVal.str s) = true) := by simp [jsFalsy, hs]
    unfold decodeStatValueJS
    rw [if_neg hf]
    show (match parseIntStr s with
          | none => (none : Option ℚ)
          | some v => some (decodeStatValue statId v)) = none
    rw [hparse]

/-- Witness for C4: the amended theorem applied at an absent magnitude, a
numeric magnitude, and a non-numeric string magnitude. -/
theorem c4_decoder_totality_witness :
    decodeStatValueJS "5" JsVal.undef = some 0
  ∧ (decodeStatValueJS "16" (JsVal.num 1385000)).isSome = true
  ∧ decodeStatValueJS "5" (JsVal.str "abc") = none :=
  ⟨c4_decoder_totality.1 "5" JsVal.undef (by decide),
   c4_decoder_totality.2.1 "16" 1385000,
   c4_decoder_totality.2.2 "5" "abc" (by decide) (by decide)⟩

/-- C5: with an empty SkillDefinition map (and regardless of the loaded
flag), a skill counts as Tier-A (zeta) exactly when its in-game tier — raw
applied tier + 1 — is at least 8, and as Tier-B (omicron) exactly when it is
at least 9; raw tier 7 (in-game 8) gives `(true, false)`, raw tier 8
(in-game 9) gives `(true, true)`, and the per-unit counters count exactly
those skills. -/
theorem c5_fallback_classifier :
    (∀ (r : Bool) (sk : OwnedSkill),
        ((classifySkill [] r sk).1 = true ↔ 8 ≤ sk.tier.getD 0 + 1)
      ∧ ((classifySkill [] r sk).2 = true ↔ 9 ≤ sk.tier.getD 0 + 1))
  ∧ (∀ r : Bool, classifySkill [] r ⟨"anySkill", some 7⟩ = (true, false))
  ∧ (∀ r : Bool, classifySkill [] r ⟨"anySkill", some 8⟩ = (true, true))
  ∧ (∀ (r : Bool) (skills : List OwnedSkill),
       countZetaOmicron [] r skills =
         (skills.countP (fun sk => decide (8 ≤ sk.tier.getD 0 + 1)),
          skills.countP (fun sk => decide (9 ≤ sk.tier.getD 0 + 1)))) := by
  refine ⟨fun r sk => ⟨by simp [classifySkill], by simp [classifySkill]⟩,
    fun r => rfl, fun r => rfl, fun r skills => rfl⟩

/-- C6: with an empty name cache, `getUnitName` strips everything after the
first colon and synthesizes a title-cased fallback from the base id
(underscores to spaces, lower-case, then title-case each word), with empty
ids giving `"Unknown"`; in particular
`getUnitName [] "SOME_UNIT_ID:SEVEN_STAR" = "Some Unit Id"` and
`getUnitName [] "" = "Unknown"`. -/
theorem c6_name_fallback :
    (∀ id : String, getUnitName [] id =
       (if splitColonHead id == "" then "Unknown"
        else titleCaseStr (toLowerStr (usToSpaceStr (splitColonHead id)))))
  ∧ getUnitName [] "SOME_UNIT_ID:SEVEN_STAR" = "Some Unit Id"
  ∧ getUnitName [] "" = "Unknown" :=
  ⟨fun _ => rfl, by decide, by decide⟩

/-- C1 counterexample: normalizing the Darth Revan scenario unit with an
empty SkillDefinition map yields 1 Tier-A (zeta) and 0 Tier-B (omicron)
positives — raw tier 7 is in-game tier 8, which the fallback counts as a
zeta, not an omicron — so the claimed output with `tier_a_count 0` and
`tier_b_count 1` is false on the code. -/
theorem c1_darth_revan_counterexample :
    ¬ ((transformUnit [] [] false [] darthRevanRaw).zeta_abilities = 0
       ∧ (transformUnit [] [] false [] darthRevanRaw).omicron_abilities = 1) := by
  decide

/-- C1 (amended): the Darth Revan scenario unit, normalized with an empty
SkillDefinition map, produces base id DARTHREVAN, rarity 7, level 85, gear
level 13, relic display tier 7, combat type 1, one Tier-A (zeta) positive and
zero Tier-B (omicron) positives. -/
theorem c1_darth_revan_scenario :
    (transformUnit [] [] false [] darthRevanRaw).base_id = "DARTHREVAN"
  ∧ (transformUnit [] [] false [] darthRevanRaw).rarity = 7
  ∧ (transformUnit [] [] false [] darthRevanRaw).level = 85
  ∧ (transformUnit [] [] false [] darthRevanRaw).gear_level = 13
  ∧ (transformUnit [] [] false [] darthRevanRaw).relic_tier = 7
  ∧ (transformUnit [] [] false [] darthRevanRaw).combat_type = 1
  ∧ (transformUnit [] [] false [] darthRevanRaw).zeta_abilities = 1
  ∧ (transformUnit [] [] false [] darthRevanRaw).omicron_abilities = 0 := by
  decide

/-- C2 counterexample: a raw unit with an explicit starship combat type and a
raw relic tier of 9 normalizes to combat type 2 with relic tier 7, so the
claim that `relic_tier` is 0 for every starship regardless of the raw relic
field is false on the code (only `gear_level` is gated on the combat type). -/
theorem c2_ship_relic_counterexample :
    (transformUnit [] [] false [] relicShip).combat_type = 2
  ∧ (transformUnit [] [] false [] relicShip).relic_tier = 7 := by decide

/-- C2 (amended): for every normalized unit with combat type 2, `gear_level`
is 0 regardless of the raw gear field; `relic_tier` always equals the display
value of the raw relic tier (raw − 2 when raw > 2, else 0) — hence it is 0
whenever the raw relic tier is at most 2, and in particular whenever combat
type 2 was inferred rather than explicit — but an explicit starship combat
type with a raw relic tier above 2 yields a nonzero `relic_tier`. -/
theorem c2_ship_zero_fields :
    ∀ (nameMap : List (String × String)) (skillMap : List (String × SkillDef))
      (skillReady : Bool) (statsMap : List (String × UnitStats)) (u : RawUnit),
      (transformUnit nameMap skillMap skillReady statsMap u).combat_type = 2 →
        (transformUnit nameMap skillMap skillReady statsMap u).gear_level = 0
      ∧ (transformUnit nameMap skillMap skillReady statsMap u).relic_tier =
          (if 2 < relicRawOf u then relicRawOf u - 2 else 0)
      ∧ (u.combatType.getD 0 = 0 →
          (transformUnit nameMap skillMap skillReady statsMap u).relic_tier = 0) := by
  intro nm sm r m u h
  refine ⟨?_, rfl, ?_⟩
  · have hg : (transformUnit nm sm r m u).gear_level =
        (if (transformUnit nm sm r m u).combat_type = 1
         then u.currentTier.getD 0 else 0) := rfl
    rw [hg, h]
    simp
  · intro h0
    have hc : (transformUnit nm sm r m u).combat_type =
        (if u.combatType.getD 0 = 0
         then (if 1 < u.currentTier.getD 0 ∨ 0 < relicRawOf u then 1 else 2)
         else u.combatType.getD 0) := rfl
    rw [h, h0, if_pos rfl] at hc
    have hr : (transformUnit nm sm r m u).relic_tier =
        (if 2 < relicRawOf u then relicRawOf u - 2 else 0) := rfl
    by_cases hcond : 1 < u.currentTier.getD 0 ∨ 0 < relicRawOf u
    · rw [if_pos hcond] at hc
      exact absurd hc (by norm_num)
    · push_neg at hcond
      have hz : relicRawOf u = 0 := Nat.le_zero.mp hcond.2
      rw [hr, hz]
      simp

/-- Witness for C2: the amended theorem applied to a unit whose starship
combat type is inferred (no explicit field, no gear, no relic). -/
theorem c2_ship_zero_fields_witness :
    (transformUnit [] [] false [] pureShip).gear_level = 0
  ∧ (transformUnit [] [] false [] pureShip).relic_tier =
      (if 2 < relicRawOf pureShip then relicRawOf pureShip - 2 else 0)
  ∧ (pureShip.combatType.getD 0 = 0 →
      (transformUnit [] [] false [] pureShip).relic_tier = 0) :=
  c2_ship_zero_fields [] [] false [] pureShip (by decide)

/-- C7: normalizing the minimal payload `{name, rosterUnit: []}` produces
empty character and ship lists, an empty currencies object, and null
arena, fleet-arena and grand-arena ranks (with every other field at its
documented default); the transform is a total function, so no missing
optional array or unmatched lookup can abort it. -/
theorem c7_minimal_payload :
    normalizePlayer "123456789" [] [] false [] minimalPayload = minimalExpected := by
  decide

/-- C8: the resolved combat type is the explicit `combatType` field when that
is present and nonzero, and otherwise 1 exactly when the gear level exceeds 1
or the raw relic tier is nonzero, else 2; and the `characters` / `ships`
output lists are the order-preserving partition of the transformed roster by
combat type 2. -/
theorem c8_combat_type_partition :
    (∀ (nameMap : List (String × String)) (skillMap : List (String × SkillDef))
       (skillReady : Bool) (statsMap : List (String × UnitStats)) (u : RawUnit),
       (transformUnit nameMap skillMap skillReady statsMap u).combat_type =
         (if u.combatType.getD 0 = 0
          then (if 1 < u.currentTier.getD 0 ∨ 0 < relicRawOf u then 1 else 2)
          else u.combatType.getD 0))
  ∧ (∀ (nameMap : List (String × String)) (skillMap : List (String × SkillDef))
       (skillReady : Bool) (statsMap : List (String × UnitStats))
       (roster : List RawUnit),
       partitionRoster nameMap skillMap skillReady statsMap roster =
         ((roster.map (transformUnit nameMap skillMap skillReady statsMap)).filter
            (fun p => !(p.combat_type == 2)),
          (roster.map (transformUnit nameMap skillMap skillReady statsMap)).filter
            (fun p => p.combat_type == 2))) := by
  refine ⟨fun _ _ _ _ _ => rfl, ?_⟩
  intro nm sm r m roster
  induction roster with
  | nil => rfl
  | cons u rest ih =>
      simp only [partitionRoster, List.map_cons, List.filter_cons, ih]
      by_cases h : (transformUnit nm sm r m u).combat_type = 2
      · simp [h]
      · simp [h]

/-- C9 counterexample: the currency entry with textual id `FLEET_CREDIT`
matches two buckets — its id contains both `CREDIT` and `FLEET` — and one
pass of the classification loop assigns its quantity to both `credits` and
`fleet_tokens`, so the claim that every entry is classified into at most one
bucket is false on the code. -/
theorem c9_two_bucket_counterexample :
    bucketMatchCount fleetCreditEntry = 2
  ∧ (classifyCurrency emptyCurrencies fleetCreditEntry).credits = some (some 5)
  ∧ (classifyCurrency emptyCurrencies fleetCreditEntry).fleet_tokens =
      some (some 5) := by decide

/-- C9 (amended): each extracted currency entry is classified into every
bucket whose numeric-id or substring condition its (upper-cased) id matches —
possibly several at once — and an entry matching no bucket leaves the
currencies object unchanged. -/
theorem c9_currency_buckets :
    (∀ (cur : Currencies) (c : CurrencyEntry), bucketMatchCount c = 0 →
       classifyCurrency cur c = cur)
  ∧ (∀ (cur : Currencies) (c : CurrencyEntry),
       classifyCurrency cur c =
         { credits := if matchesCredits (currencyIdString c)
               then some (currencyQty c) else cur.credits
           crystals := if matchesCrystals (currencyIdString c)
               then some (currencyQty c) else cur.crystals
           ally_points := if matchesAllyPoints (currencyIdString c)
               then some (currencyQty c) else cur.ally_points
           cantina := if matchesCantina (currencyIdString c)
               then some (currencyQty c) else cur.cantina
           squad_arena_tokens := if matchesSquadArena (currencyIdString c)
               then some (currencyQty c) else cur.squad_arena_tokens
           fleet_tokens := if matchesFleet (currencyIdString c)
               then some (currencyQty c) else cur.fleet_tokens
           gw_tokens := if matchesGw (currencyIdString c)
               then some (currencyQty c) else cur.gw_tokens
           get1 := if matchesGet1 (currencyIdString c)
               then some (currencyQty c) else cur.get1
           get2 := if matchesGet2 (currencyIdString c)
               then some (currencyQty c) else cur.get2
           get3 := if matchesGet3 (currencyIdString c)
               then some (currencyQty c) else cur.get3 }) := by
  constructor
  · intro cur c h
    have ht : true ∉ bucketBools c := List.count_eq_zero.mp h
    have h1 : matchesCredits (currencyIdString c) = false := by
      cases hx : matchesCredits (currencyIdString c)
      · rfl
      · exact absurd (by simp [bucketBools, hx]) ht
    have h2 : matchesCrystals (currencyIdString c) = false := by
      cases hx : matchesCrystals (currencyIdString c)
      · rfl
      · exact absurd (by simp [bucketBools, hx]) ht
    have h3 : matchesAllyPoints (currencyIdString c) = false := by
      cases hx : matchesAllyPoints (currencyIdString c)
      · rfl
      · exact absurd (by simp [bucketBools, hx]) ht
    have h4 : matchesCantina (currencyIdString c) = false := by
      cases hx : matchesCantina (currencyIdString c)
      · rfl
      · exact absurd (by simp [bucketBools, hx]) ht
    have h5 : matchesSquadArena (currencyIdString c) = false := by
      cases hx : matchesSquadArena (currencyIdString c)
      · rfl
      · exact absurd (by simp [bucketBools, hx]) ht
    have h6 : matchesFleet (currencyIdString c) = false := by
      cases hx : matchesFleet (currencyIdString c)
      · rfl
      · exact absurd (by simp [bucketBools, hx]) ht
    have h7 : matchesGw (currencyIdString c) = false := by
      cases hx : matchesGw (currencyIdString c)
      · rfl
      · exact absurd (by simp [bucketBools, hx]) ht
    have h8 : matchesGet1 (currencyIdString c) = false := by
      cases hx : matchesGet1 (currencyIdString c)
      · rfl
      · exact absurd (by simp [bucketBools, hx]) ht
    have h9 : matchesGet2 (currencyIdString c) = false := by
      cases hx : matchesGet2 (currencyIdString c)
      · rfl
      · exact absurd (by simp [bucketBools, hx]) ht
    have h10 : matchesGet3 (currencyIdString c) = false := by
      cases hx : matchesGet3 (currencyIdString c)
      · rfl
      · exact absurd (by simp [bucketBools, hx]) ht
    simp [classifyCurrency, h1, h2, h3, h4, h5, h6, h7, h8, h9, h10]
  · intro cur c
    rfl

/-- Witness for C9: the amended theorem's unmatched-entry part applied to an
entry recognized by no bucket. -/
theorem c9_currency_buckets_witness :
    classifyCurrency emptyCurrencies unmatchedEntry = emptyCurrencies :=
  c9_currency_buckets.1 emptyCurrencies unmatchedEntry (by decide)

/-- C10: every normalized unit whose resolved combat type is not 1 gets an
empty mods list and no attached stats object, even when the raw unit carries
`equippedStatMod` entries and the computed-stats map holds a matching entry. -/
theorem c10_ship_no_mods_no_stats :
    ∀ (nameMap : List (String × String)) (skillMap : List (String × SkillDef))
      (skillReady : Bool) (statsMap : List (String × UnitStats)) (u : RawUnit),
      (transformUnit nameMap skillMap skillReady statsMap u).combat_type ≠ 1 →
        (transformUnit nameMap skillMap skillReady statsMap u).mods = []
      ∧ (transformUnit nameMap skillMap skillReady statsMap u).stats = none := by
  intro nm sm r m u h
  constructor
  · have hm : (transformUnit nm sm r m u).mods =
        (if (transformUnit nm sm r m u).combat_type = 1
         then (u.equippedStatMod.getD []).map decodeMod else []) := rfl
    rw [hm, if_neg h]
  · have hs : (transformUnit nm sm r m u).stats =
        (if (transformUnit nm sm r m u).combat_type = 1
         then List.lookup (splitColonHead (u.definitionId.getD "")) m else none) := rfl
    rw [hs, if_neg h]

/-- Witness for C10: the theorem applied to an explicit starship carrying an
equipped mod, with a computed-stats map containing its base id. -/
theorem c10_ship_no_mods_no_stats_witness :
    (transformUnit [] [] false shipStatsMap shipWithMods).mods = []
  ∧ (transformUnit [] [] false shipStatsMap shipWithMods).stats = none :=
  c10_ship_no_mods_no_stats [] [] false shipStatsMap shipWithMods (by decide)

